import Mathlib

/-!
Shallow embedding of the scan-session state machine of `src/src/App.jsx`
(a React single-page component).  React state hooks become fields of a
`Session` structure; the asynchronous submission `uploadToAPI` becomes a
pure function over an explicit prophecy of its nondeterminism: the list of
progress-timer tick increments that fire before the remote response is
handled (each increment is `Math.random()*7`, hence in `[0,7)`), and the
outcome of the remote call.  `clearInterval` invocations are counted
explicitly so that timer-cancellation claims can be stated.
-/

/-- The session mode: `useState('idle')`, values from the comment on
App.jsx line 11: idle | upload | camera | scanning | result. -/
inductive Mode where
  | idle
  | upload
  | camera
  | scanning
  | result
deriving DecidableEq, Repr

/-- The structured classification outcome parsed from the response body
(fields read by the Results modal: `detected`, `label`, `confidence`,
`suggestions`). -/
structure ScanResult where
  detected : Bool
  label : String
  confidence : ℚ
  suggestions : List String
deriving DecidableEq, Repr

/-- The React state of `App` (App.jsx lines 11-16) plus the camera
stream ref (line 21), with streams named by an opaque identifier. -/
structure Session where
  mode : Mode
  fileName : String
  previewURL : String
  result : Option ScanResult
  progress : ℚ
  error : String
  stream : Option Nat
deriving DecidableEq, Repr

/-- The session at application start: `idle`, empty strings, no result,
progress 0, no stream. -/
def freshSession : Session :=
  { mode := Mode.idle, fileName := "", previewURL := "", result := none
    progress := 0, error := "", stream := none }

/-- A user-chosen file; only its name is observed by the handlers. -/
structure File where
  name : String
deriving DecidableEq, Repr

/-- A still image blob produced by `canvas.toBlob`. -/
structure Blob where
  id : Nat
deriving DecidableEq, Repr

/-- Outcome of the `navigator.mediaDevices.getUserMedia` request inside
`startCamera` (App.jsx lines 44-56): either a stream is granted, or the
whole `try` block throws (permission denial, device absence). -/
inductive CameraOutcome where
  | granted (stream : Nat)
  | denied
deriving DecidableEq, Repr

/-- The camera error message set in the `catch` of `startCamera`
(App.jsx line 54). -/
def cameraUnavailableMsg : String :=
  "Unable to access camera. Please allow permissions or upload an image instead."

/-- `startCamera` (App.jsx lines 44-56): clears `error`, requests the
camera; on grant the stream is stored (the `videoRef` wiring has no
session-state effect); on any failure only `error` is set to the camera
message.  `mode` is never written by this function. -/
def startCamera (s : Session) (o : CameraOutcome) : Session :=
  match o with
  | CameraOutcome.granted st => { s with error := "", stream := some st }
  | CameraOutcome.denied => { s with error := cameraUnavailableMsg }

/-- `stopCamera` (App.jsx lines 58-63): stops all tracks of the current
stream, if any, and clears the ref; a no-op when no stream is open. -/
def stopCamera (s : Session) : Session :=
  { s with stream := none }

/-- One firing of the `setInterval` callback in `beginScanUI`
(App.jsx lines 68-73), as the `setProgress` updater:
if the current value is at least 96 the interval clears itself and the
value becomes 96; otherwise the value grows by the random increment. -/
def progressStep (p : ℚ) (inc : ℚ) : ℚ :=
  if 96 ≤ p then 96 else p + inc

/-- The sequence of progress values written by successive timer ticks,
starting from current value `p`, given the stream of random increments:
once a tick takes the `96 ≤ p` branch it clears the interval, so no
further tick fires. -/
def tickTrace (p : ℚ) : List ℚ → List ℚ
  | [] => []
  | inc :: rest =>
      if 96 ≤ p then [96]
      else (p + inc) :: tickTrace (p + inc) rest

/-- Outcome of the remote call in `uploadToAPI`: a non-2xx status
(`!resp.ok`, App.jsx line 86), a `resp.json()` rejection with a given
message, or a parsed body. -/
inductive FetchOutcome where
  | httpError (status : Nat)
  | parseError (msg : String)
  | success (data : ScanResult)
deriving DecidableEq, Repr

/-- The error message thrown on non-2xx status (App.jsx line 87). -/
def scanFailedMsg (status : Nat) : String :=
  "Scan failed (" ++ toString status ++ ")"

/-- The fallback error message of the `catch` block (App.jsx line 97),
used when the caught message is empty. -/
def fallbackMsg : String := "Something went wrong while scanning"

/-- State of one `uploadToAPI` call: the session plus the progress
interval.  `timerActive` records whether the interval is still
scheduled; `tickClears` counts `clearInterval` calls made from inside
the tick callback (App.jsx line 70); `handleClears` counts calls of the
cancellation handle returned by `beginScanUI` (line 74, invoked as
`endProgress()` in the `finally` at line 100). -/
structure UploadState where
  session : Session
  timerActive : Bool
  tickClears : Nat
  handleClears : Nat
deriving DecidableEq, Repr

/-- One scheduled tick of the interval inside a submission: fires only
while the interval is still scheduled, and mirrors `progressStep`,
recording the self-clear taken on the `96 ≤ p` branch. -/
def applyTick (u : UploadState) (inc : ℚ) : UploadState :=
  if u.timerActive then
    if 96 ≤ u.session.progress then
      { u with
        session := { u.session with progress := 96 },
        timerActive := false, tickClears := u.tickClears + 1 }
    else
      { u with session := { u.session with progress := u.session.progress + inc } }
  else u

/-- `beginScanUI` (App.jsx lines 65-75) followed by the `setError('')`
at line 82: mode becomes `scanning`, progress resets to 0, the error is
cleared, and the interval is started; the cancellation handle is
returned (modelled by `endProgress`). -/
def beginScanUI (s : Session) : UploadState :=
  { session := { s with mode := Mode.scanning, progress := 0, error := "" }
    timerActive := true, tickClears := 0, handleClears := 0 }

/-- Invoking the cancellation handle returned by `beginScanUI`
(the `finally` block, App.jsx lines 99-101): one more `clearInterval`
call; clearing an already-cleared interval is an idempotent no-op on the
schedule but still an invocation. -/
def endProgress (u : UploadState) : UploadState :=
  { u with timerActive := false, handleClears := u.handleClears + 1 }

/-- The continuation of `uploadToAPI` once the awaits have settled
(App.jsx lines 86-98).  It closes over no session snapshot and checks no
generation token: each `set*` applies to whatever the current session
state is.  Success stores the parsed data, sets progress to 100 and mode
to `result`; either failure stores the thrown message (with the
fallback for an empty one) and sets mode to `idle`. -/
def applyOutcome (s : Session) (o : FetchOutcome) : Session :=
  match o with
  | FetchOutcome.success data =>
      { s with result := some data, progress := 100, mode := Mode.result }
  | FetchOutcome.httpError status =>
      { s with error := scanFailedMsg status, mode := Mode.idle }
  | FetchOutcome.parseError msg =>
      { s with error := if msg = "" then fallbackMsg else msg, mode := Mode.idle }

/-- `uploadToAPI` (App.jsx lines 79-102) as a whole, when no reset
interleaves: start the scanning UI and the interval, let the ticks that
fire during the fetch / artificial delay / body parse run, apply the
outcome continuation, then run the `finally`.  The event loop runs the
post-await continuation to completion, so no tick fires between the
outcome handling and the `finally`. -/
def uploadToAPI (init : Session) (incs : List ℚ) (o : FetchOutcome) : UploadState :=
  let u := List.foldl applyTick (beginScanUI init) incs
  endProgress { u with session := applyOutcome u.session o }

/-- `onPickFile` (App.jsx lines 104-111): with no file selected, nothing
happens; otherwise the file name and a fresh object URL are stored and
`uploadToAPI` is invoked (the Bool records that invocation).  There is
no mode guard: the body never reads `mode`. -/
def onPickFile (s : Session) (f : Option File) (freshURL : String) : Session × Bool :=
  match f with
  | none => (s, false)
  | some file => ({ s with fileName := file.name, previewURL := freshURL }, true)

/-- `onDrop` (App.jsx lines 113-121): identical session effect to
`onPickFile`, sourced from the drag payload; again no mode guard. -/
def onDrop (s : Session) (f : Option File) (freshURL : String) : Session × Bool :=
  match f with
  | none => (s, false)
  | some file => ({ s with fileName := file.name, previewURL := freshURL }, true)

/-- `onCapture` (App.jsx lines 123-141): bails out without a video
element or when `toBlob` yields nothing; otherwise stores a fresh object
URL and the fixed capture name, sets mode to `camera`, and invokes
`uploadToAPI` (the Bool records that invocation).  No mode guard. -/
def onCapture (s : Session) (hasVideo : Bool) (b : Option Blob) (freshURL : String) :
    Session × Bool :=
  if hasVideo then
    match b with
    | none => (s, false)
    | some _ =>
        ({ s with
           previewURL := freshURL, fileName := "camera-capture.png",
           mode := Mode.camera }, true)
  else (s, false)

/-- `resetAll` (App.jsx lines 143-150): six state setters back to the
initial values.  The second component lists the object URLs passed to
`URL.revokeObjectURL` during the call: the body contains no such call,
so the list is empty - the preview URL reference is dropped, not
revoked. -/
def resetAll (s : Session) : Session × List String :=
  ({ s with
     mode := Mode.idle, result := none, progress := 0, error := "",
     previewURL := "", fileName := "" }, [])

/-- JavaScript `Math.round`: round half toward positive infinity. -/
def jsRound (p : ℚ) : ℤ := ⌊p + 1 / 2⌋

/-- The percentage rendered by the `Scanning` component
(App.jsx lines 385 and 388): `Math.min(100, Math.round(progress))`. -/
def scanningDisplay (p : ℚ) : ℤ := min 100 (jsRound p)

/-- A concrete parsed result used in concrete evaluations. -/
def sampleResult : ScanResult :=
  { detected := true, label := "Organic", confidence := 87 / 100
    suggestions := ["Compost this item"] }

/-- A concrete session in the middle of a submission. -/
def scanningSession : Session :=
  { mode := Mode.scanning, fileName := "a.png", previewURL := "blob:1"
    result := none, progress := 50, error := "", stream := none }


/-- The relation between consecutive progress values written by the
timer: never below `min previous 96`, and genuinely non-decreasing while
the previous value is at most 96. -/
def tickStepRel (a b : ℚ) : Prop := min a 96 ≤ b ∧ (a ≤ 96 → a ≤ b)

/-- A concrete session sitting in `result` mode with a stored result and
a live preview URL. -/
def resultSession : Session :=
  { mode := Mode.result, fileName := "leaf.png", previewURL := "blob:1"
    result := some sampleResult, progress := 100, error := "", stream := none }

lemma applyTick_session_result (u : UploadState) (inc : ℚ) :
    (applyTick u inc).session.result = u.session.result := by
  unfold applyTick
  split
  · split <;> rfl
  · rfl

lemma foldl_applyTick_session_result (incs : List ℚ) (u : UploadState) :
    (List.foldl applyTick u incs).session.result = u.session.result := by
  induction incs generalizing u with
  | nil => rfl
  | cons inc rest ih =>
      rw [List.foldl_cons, ih, applyTick_session_result]

lemma applyTick_handleClears (u : UploadState) (inc : ℚ) :
    (applyTick u inc).handleClears = u.handleClears := by
  unfold applyTick
  split
  · split <;> rfl
  · rfl

lemma foldl_applyTick_handleClears (incs : List ℚ) (u : UploadState) :
    (List.foldl applyTick u incs).handleClears = u.handleClears := by
  induction incs generalizing u with
  | nil => rfl
  | cons inc rest ih =>
      rw [List.foldl_cons, ih, applyTick_handleClears]

lemma applyTick_clearInv (u : UploadState) (inc : ℚ)
    (h : u.tickClears ≤ 1 ∧ (u.timerActive = true → u.tickClears = 0)) :
    (applyTick u inc).tickClears ≤ 1 ∧
    ((applyTick u inc).timerActive = true → (applyTick u inc).tickClears = 0) := by
  unfold applyTick
  split
  case isTrue hact =>
    split
    · have h0 : u.tickClears = 0 := h.2 hact
      constructor
      · simp [h0]
      · intro hcontra
        simp at hcontra
    · exact h
  case isFalse hact => exact h

lemma foldl_applyTick_clearInv (incs : List ℚ) (u : UploadState)
    (h : u.tickClears ≤ 1 ∧ (u.timerActive = true → u.tickClears = 0)) :
    (List.foldl applyTick u incs).tickClears ≤ 1 := by
  induction incs generalizing u with
  | nil => exact h.1
  | cons inc rest ih =>
      rw [List.foldl_cons]
      exact ih (applyTick u inc) (applyTick_clearInv u inc h)

/-- Claim C1 is violated by the code: with the session in `scanning`
mode, each public acquisition handler (`onPickFile`, `onDrop`,
`onCapture`) still invokes `uploadToAPI` - starting a new submission -
and mutates the session, because none of them reads `mode`. -/
theorem claim_C1_scanning_not_guarded :
    scanningSession.mode = Mode.scanning ∧
    (onPickFile scanningSession (some { name := "b.png" }) "blob:2").2 = true ∧
    (onDrop scanningSession (some { name := "b.png" }) "blob:2").2 = true ∧
    (onCapture scanningSession true (some { id := 1 }) "blob:2").2 = true ∧
    (onDrop scanningSession (some { name := "b.png" }) "blob:2").1.fileName = "b.png" ∧
    scanningSession.fileName = "a.png" ∧
    (onDrop scanningSession (some { name := "b.png" }) "blob:2").1 ≠ scanningSession := by
  refine ⟨rfl, rfl, rfl, rfl, rfl, rfl, ?_⟩
  intro h
  have h2 := congrArg Session.fileName h
  simp only [onDrop, scanningSession] at h2
  exact absurd h2 (by decide)

/-- Claim C2 is violated by the code: the continuation of `uploadToAPI`
checks no generation or session token, so a remote success arriving
after `resetAll` stores its data, sets progress to 100 and forces
`result` mode on the freshly reset session instead of being
discarded. -/
theorem claim_C2_late_result_overwrites_reset :
    (resetAll resultSession).1.result = none ∧
    (resetAll resultSession).1.mode = Mode.idle ∧
    (resetAll resultSession).1.progress = 0 ∧
    (applyOutcome (resetAll resultSession).1
      (FetchOutcome.success sampleResult)).result = some sampleResult ∧
    (applyOutcome (resetAll resultSession).1
      (FetchOutcome.success sampleResult)).mode = Mode.result ∧
    (applyOutcome (resetAll resultSession).1
      (FetchOutcome.success sampleResult)).progress = 100 :=
  ⟨rfl, rfl, rfl, rfl, rfl, rfl⟩

/-- Claim C6: when the camera request fails, `startCamera` leaves `mode`
(and the stream ref) unchanged and only sets the camera-specific,
non-empty error message; the failure is caught, hence non-fatal. -/
theorem claim_C6_camera_failure_nonfatal (s : Session) (o : CameraOutcome) :
    (startCamera s o).mode = s.mode ∧
    (startCamera s CameraOutcome.denied).error = cameraUnavailableMsg ∧
    (startCamera s CameraOutcome.denied).stream = s.stream ∧
    cameraUnavailableMsg ≠ "" := by
  refine ⟨?_, rfl, rfl, by decide⟩
  cases o <;> rfl

/-- Claim C7 is refuted in its invalidation part: on a session in
`result` mode holding the live preview URL, `resetAll` revokes no object
URL at all (its body contains no `URL.revokeObjectURL` call), so the
handle is merely forgotten, not invalidated. -/
theorem claim_C7_counterexample :
    resultSession.previewURL = "blob:1" ∧
    "blob:1" ∉ (resetAll resultSession).2 := by
  refine ⟨rfl, ?_⟩
  simp [resetAll]

/-- Claim C7 as amended: `resetAll` clears `result`, `error`, `progress`
to their initial values (none, empty, 0), empties the preview URL and
file name and returns to `idle`, but revokes no object URL - the
preview handle reference is dropped while the underlying object URL
stays valid. -/
theorem claim_C7_reset_clears_state (s : Session) :
    (resetAll s).1.result = none ∧ (resetAll s).1.error = "" ∧
    (resetAll s).1.progress = 0 ∧ (resetAll s).1.previewURL = "" ∧
    (resetAll s).1.fileName = "" ∧ (resetAll s).1.mode = Mode.idle ∧
    (resetAll s).2 = [] :=
  ⟨rfl, rfl, rfl, rfl, rfl, rfl, rfl⟩

/-- Claim C10: the percentage rendered by the `Scanning` component is
`min 100 (round progress)` with the JavaScript half-up rounding, so it
never exceeds 100 even for internal values above 96. -/
theorem claim_C10_display_capped (p : ℚ) :
    scanningDisplay p = min 100 (jsRound p) ∧ scanningDisplay p ≤ 100 :=
  ⟨rfl, min_le_left _ _⟩

/-- Claim C3 is refuted: with fourteen ticks of increment 6.9 (each a
possible value of `Math.random()*7`), the simulated progress reaches
483/5 = 96.6, which exceeds 96 while the remote response is still
pending - the tick only clamps to 96 one tick later. -/
theorem claim_C3_counterexample :
    (483 / 5 : ℚ) ∈ tickTrace 0 (List.replicate 14 ((69 : ℚ) / 10)) ∧
    (96 : ℚ) < 483 / 5 := by
  norm_num [tickTrace, List.replicate]

/-- Claim C3 as amended: since each tick increment is below 7 and a tick
only grows a value that is still below 96, the simulated progress stays
strictly below 103 = 96 + 7 before the remote response is handled; it
can overshoot 96 by less than one increment, and the following tick
clamps it back to 96. -/
theorem claim_C3_overshoot_bounded (p : ℚ) (incs : List ℚ)
    (h7 : ∀ inc ∈ incs, inc < 7) :
    ∀ q ∈ tickTrace p incs, q < 103 := by
  induction incs generalizing p with
  | nil =>
      intro q hq
      simp [tickTrace] at hq
  | cons inc rest ih =>
      simp only [tickTrace]
      split
      case isTrue h96 =>
        intro q hq
        simp only [List.mem_singleton] at hq
        rw [hq]
        norm_num
      case isFalse h96 =>
        intro q hq
        rcases List.mem_cons.mp hq with rfl | hq2
        · have hp : p < 96 := lt_of_not_le h96
          have hinc : inc < 7 := h7 inc (List.mem_cons_self inc rest)
          linarith
        · exact ih (p + inc) (fun i hi => h7 i (List.mem_cons_of_mem inc hi)) q hq2

/-- Witness for the amended claim C3 at a concrete run: the overshot
value 96.6 produced by fourteen ticks of increment 6.9 is below 103. -/
theorem claim_C3_overshoot_bounded_witness : (483 / 5 : ℚ) < 103 :=
  claim_C3_overshoot_bounded 0 (List.replicate 14 ((69 : ℚ) / 10))
    (fun i hi => by rw [List.eq_of_mem_replicate hi]; norm_num)
    (483 / 5) (by norm_num [tickTrace, List.replicate])

/-- Claim C4 is refuted: with fifteen ticks of increment 6.9 the
progress sequence reaches 96.6 and the next tick writes 96, a strict
decrease, so the tick sequence starting from the reset to 0 is not
monotonically non-decreasing. -/
theorem claim_C4_counterexample :
    ¬ List.Chain' (· ≤ ·) ((0 : ℚ) :: tickTrace 0 (List.replicate 15 ((69 : ℚ) / 10))) := by
  norm_num [tickTrace, List.replicate, List.chain'_cons]

/-- Claim C4 as amended: every tick writes a value at least
`min previous 96`, and is non-decreasing whenever the previous value is
at most 96; the only possible decrease is the single clamp from an
overshot value above 96 back to 96. -/
theorem claim_C4_monotone_up_to_clamp (p : ℚ) (incs : List ℚ)
    (h0 : ∀ inc ∈ incs, 0 ≤ inc) :
    List.Chain' tickStepRel (p :: tickTrace p incs) := by
  induction incs generalizing p with
  | nil => simp [tickTrace]
  | cons inc rest ih =>
      simp only [tickTrace]
      split
      case isTrue h96 =>
        refine List.chain'_cons.mpr ⟨⟨min_le_right p 96, fun hp => hp⟩, ?_⟩
        simp
      case isFalse h96 =>
        refine List.chain'_cons.mpr ⟨⟨?_, fun _ => ?_⟩,
          ih (p + inc) (fun i hi => h0 i (List.mem_cons_of_mem inc hi))⟩
        · exact le_trans (min_le_left p 96)
            (le_add_of_nonneg_right (h0 inc (List.mem_cons_self inc rest)))
        · exact le_add_of_nonneg_right (h0 inc (List.mem_cons_self inc rest))

/-- Witness for the amended claim C4 at a concrete run of one tick of
increment 6.9 starting from the reset to 0. -/
theorem claim_C4_monotone_up_to_clamp_witness :
    List.Chain' tickStepRel ((0 : ℚ) :: tickTrace 0 [(69 : ℚ) / 10]) :=
  claim_C4_monotone_up_to_clamp 0 [(69 : ℚ) / 10]
    (fun i hi => by simp only [List.mem_singleton] at hi; rw [hi]; norm_num)

/-- Claim C5 is refuted: in a submission whose ticks drive progress past
96 (fifteen ticks of increment 6.9), the tick callback itself calls
`clearInterval` once, and the `finally` block then invokes the
cancellation handle as well - two `clearInterval` invocations, one of
them outside the handle. -/
theorem claim_C5_counterexample :
    (uploadToAPI freshSession (List.replicate 15 ((69 : ℚ) / 10))
      (FetchOutcome.success sampleResult)).tickClears = 1 ∧
    (uploadToAPI freshSession (List.replicate 15 ((69 : ℚ) / 10))
      (FetchOutcome.success sampleResult)).handleClears = 1 ∧
    (uploadToAPI freshSession (List.replicate 15 ((69 : ℚ) / 10))
        (FetchOutcome.success sampleResult)).tickClears +
      (uploadToAPI freshSession (List.replicate 15 ((69 : ℚ) / 10))
        (FetchOutcome.success sampleResult)).handleClears ≠ 1 := by
  norm_num [uploadToAPI, beginScanUI, applyTick, endProgress, applyOutcome,
    List.replicate, freshSession]

/-- Claim C5 as amended: every submission ends with the interval
cancelled - the `finally` block invokes the cancellation handle exactly
once regardless of outcome - but the tick callback may additionally
self-clear the interval (at most once, when progress reaches 96), so up
to two idempotent `clearInterval` invocations occur; no repeating timer
survives past the end of the submission. -/
theorem claim_C5_timer_cancelled (init : Session) (incs : List ℚ) (o : FetchOutcome) :
    (uploadToAPI init incs o).timerActive = false ∧
    (uploadToAPI init incs o).handleClears = 1 ∧
    (uploadToAPI init incs o).tickClears ≤ 1 := by
  refine ⟨rfl, ?_, ?_⟩
  · show (List.foldl applyTick (beginScanUI init) incs).handleClears + 1 = 1
    rw [foldl_applyTick_handleClears]
    rfl
  · show (List.foldl applyTick (beginScanUI init) incs).tickClears ≤ 1
    exact foldl_applyTick_clearInv incs (beginScanUI init) ⟨Nat.zero_le 1, fun _ => rfl⟩

/-- Claim C8: a submission whose remote call succeeds ends with progress
100, the parsed result stored and mode `result`; and a submission ends
in mode `result` only with a stored result present (`uploadToAPI` is the
only writer of mode `result` in the component). -/
theorem claim_C8_success_final_state (init : Session) (incs : List ℚ) (o : FetchOutcome) :
    ((uploadToAPI init incs o).session.mode = Mode.result →
      (uploadToAPI init incs o).session.result.isSome = true) ∧
    ∀ data, o = FetchOutcome.success data →
      (uploadToAPI init incs o).session.progress = 100 ∧
      (uploadToAPI init incs o).session.result = some data ∧
      (uploadToAPI init incs o).session.mode = Mode.result := by
  cases o with
  | success data =>
      refine ⟨fun _ => rfl, ?_⟩
      intro d hd
      cases hd
      exact ⟨rfl, rfl, rfl⟩
  | httpError status =>
      exact ⟨fun hmode => Mode.noConfusion hmode, fun d hd => FetchOutcome.noConfusion hd⟩
  | parseError msg =>
      exact ⟨fun hmode => Mode.noConfusion hmode, fun d hd => FetchOutcome.noConfusion hd⟩

/-- Witness for claim C8 at a concrete successful submission from the
start-up session with no ticks. -/
theorem claim_C8_success_final_state_witness :
    (uploadToAPI freshSession [] (FetchOutcome.success sampleResult)).session.result.isSome
      = true ∧
    ((uploadToAPI freshSession [] (FetchOutcome.success sampleResult)).session.progress = 100 ∧
     (uploadToAPI freshSession []
       (FetchOutcome.success sampleResult)).session.result = some sampleResult ∧
     (uploadToAPI freshSession []
       (FetchOutcome.success sampleResult)).session.mode = Mode.result) :=
  ⟨(claim_C8_success_final_state freshSession [] (FetchOutcome.success sampleResult)).1 rfl,
   (claim_C8_success_final_state freshSession []
     (FetchOutcome.success sampleResult)).2 sampleResult rfl⟩

/-- Claim C9: a submission that starts with no stored result and fails -
non-2xx status or body parse failure - ends with mode `idle`, a
non-empty error message and no stored result; there is no terminal
error mode. -/
theorem claim_C9_failure_final_state (init : Session) (incs : List ℚ)
    (status : Nat) (msg : String) (h : init.result = none) :
    (uploadToAPI init incs (FetchOutcome.httpError status)).session.mode = Mode.idle ∧
    (uploadToAPI init incs (FetchOutcome.httpError status)).session.error ≠ "" ∧
    (uploadToAPI init incs (FetchOutcome.httpError status)).session.result = none ∧
    (uploadToAPI init incs (FetchOutcome.parseError msg)).session.mode = Mode.idle ∧
    (uploadToAPI init incs (FetchOutcome.parseError msg)).session.error ≠ "" ∧
    (uploadToAPI init incs (FetchOutcome.parseError msg)).session.result = none := by
  have hkey : (List.foldl applyTick (beginScanUI init) incs).session.result = none := by
    rw [foldl_applyTick_session_result]
    exact h
  refine ⟨rfl, ?_, hkey, rfl, ?_, hkey⟩
  · show scanFailedMsg status ≠ ""
    intro he
    have h2 := congrArg String.length he
    rw [scanFailedMsg, String.length_append, String.length_append] at h2
    simp at h2
    exact absurd h2.1.1 (by decide)
  · show (if msg = "" then fallbackMsg else msg) ≠ ""
    split
    case isTrue hm => decide
    case isFalse hm => exact hm

/-- Witness for claim C9 at a concrete failing submission from the
start-up session: HTTP status 500 and an empty parse-error message. -/
theorem claim_C9_failure_final_state_witness :
    (uploadToAPI freshSession [] (FetchOutcome.httpError 500)).session.mode = Mode.idle ∧
    (uploadToAPI freshSession [] (FetchOutcome.httpError 500)).session.error ≠ "" ∧
    (uploadToAPI freshSession [] (FetchOutcome.httpError 500)).session.result = none ∧
    (uploadToAPI freshSession [] (FetchOutcome.parseError "")).session.mode = Mode.idle ∧
    (uploadToAPI freshSession [] (FetchOutcome.parseError "")).session.error ≠ "" ∧
    (uploadToAPI freshSession [] (FetchOutcome.parseError "")).session.result = none :=
  claim_C9_failure_final_state freshSession [] 500 "" rfl
